import Mathlib

/-!
Verification of the Gaussian-splatting scene model and codec
(`src/model/render/gaussian_utils.py`) against its specification.

The Python source is shallowly embedded: float arithmetic becomes exact
real arithmetic over `ℝ`; batched torch tensors become either per-primitive
functions over `Fin n` (for the math kernels) or shape-carrying function
matrices/tensors (for the scene model and codec); fallible code paths
(raises, failed asserts, shape errors) return `Option`.
-/

namespace GRM

/-! ## Math kernels (source lines 21-73 and 173-178) -/

/-- Source `strip_lowerdiag` (lines 21-30), per primitive: the 6 entries of a
3×3 matrix in order (0,0),(0,1),(0,2),(1,1),(1,2),(2,2), i.e. xx,xy,xz,yy,yz,zz.
The source is batched over `N`; the batch dimension is handled by the caller. -/
def strip_lowerdiag (L : Matrix (Fin 3) (Fin 3) ℝ) : Fin 6 → ℝ :=
  ![L 0 0, L 0 1, L 0 2, L 1 1, L 1 2, L 2 2]

/-- Source `strip_symmetric` (lines 33-34). -/
def strip_symmetric (sym : Matrix (Fin 3) (Fin 3) ℝ) : Fin 6 → ℝ :=
  strip_lowerdiag sym

/-- The norm computed on source lines 38-40: Euclidean norm of the raw
quaternion `r` in order (w,x,y,z). -/
noncomputable def quatNorm (r : Fin 4 → ℝ) : ℝ :=
  Real.sqrt (r 0 * r 0 + r 1 * r 1 + r 2 * r 2 + r 3 * r 3)

/-- The quadratic quaternion-to-matrix formula of `build_rotation`
(source lines 44-60), applied to already-normalized components
`w, x, y, z` (the source's variables `r, x, y, z` after `q = r / norm`). -/
noncomputable def build_rotation_q (w x y z : ℝ) : Matrix (Fin 3) (Fin 3) ℝ :=
  !![1 - 2 * (y * y + z * z), 2 * (x * y - w * z), 2 * (x * z + w * y);
     2 * (x * y + w * z), 1 - 2 * (x * x + z * z), 2 * (y * z - w * x);
     2 * (x * z - w * y), 2 * (y * z + w * x), 1 - 2 * (x * x + y * y)]

/-- Source `build_rotation` (lines 37-60), per primitive: divide the raw
quaternion `r` (order w,x,y,z) by its Euclidean norm, then apply the
quadratic matrix formula. -/
noncomputable def build_rotation (r : Fin 4 → ℝ) : Matrix (Fin 3) (Fin 3) ℝ :=
  build_rotation_q (r 0 / quatNorm r) (r 1 / quatNorm r)
    (r 2 / quatNorm r) (r 3 / quatNorm r)

/-- Source `build_scaling_rotation` (lines 63-72), per primitive:
`L = R @ diag(s)` where `R = build_rotation(r)`. -/
noncomputable def build_scaling_rotation (s : Fin 3 → ℝ) (r : Fin 4 → ℝ) :
    Matrix (Fin 3) (Fin 3) ℝ :=
  build_rotation r * Matrix.diagonal s

/-- Source constant `C0` (line 76), the degree-0 SH basis value. -/
noncomputable def C0 : ℝ := 0.28209479177387814

/-- Source `RGB2SH` (lines 173-174). -/
noncomputable def RGB2SH (rgb : ℝ) : ℝ := (rgb - 0.5) / C0

/-- Source `SH2RGB` (lines 177-178). -/
noncomputable def SH2RGB (sh : ℝ) : ℝ := sh * C0 + 0.5

/-- Source `build_covariance_from_scaling_rotation` (lines 261-265, a closure
inside `GaussianModel.setup_functions` that only uses its arguments), per
primitive: `L = build_scaling_rotation(scaling_modifier * scaling, rotation)`,
covariance `L·Lᵗ`, packed by `strip_symmetric`. -/
noncomputable def build_covariance_from_scaling_rotation (scaling : Fin 3 → ℝ)
    (scaling_modifier : ℝ) (rotation : Fin 4 → ℝ) : Fin 6 → ℝ :=
  strip_symmetric
    (build_scaling_rotation (fun i => scaling_modifier * scaling i) rotation *
      (build_scaling_rotation (fun i => scaling_modifier * scaling i) rotation).transpose)

/-- The symmetric 3×3 matrix described by a 6-vector packed in the
upper-triangular order xx,xy,xz,yy,yz,zz used by `strip_lowerdiag`. -/
def sym_of_packed (u : Fin 6 → ℝ) : Matrix (Fin 3) (Fin 3) ℝ :=
  !![u 0, u 1, u 2;
     u 1, u 3, u 4;
     u 2, u 4, u 5]

/-! ## Helper lemmas for the rotation-matrix algebra -/

/-- The homogeneous form of the quaternion matrix: equal to
`build_rotation_q` when `w² + x² + y² + z² = 1`. -/
noncomputable def hrot (w x y z : ℝ) : Matrix (Fin 3) (Fin 3) ℝ :=
  !![w * w + x * x - y * y - z * z, 2 * (x * y - w * z), 2 * (x * z + w * y);
     2 * (x * y + w * z), w * w - x * x + y * y - z * z, 2 * (y * z - w * x);
     2 * (x * z - w * y), 2 * (y * z + w * x), w * w - x * x - y * y + z * z]

/-! ## Activation functions -/

/-- `torch.sigmoid`. -/
noncomputable def sigmoid (x : ℝ) : ℝ := 1 / (1 + Real.exp (-x))

/-- `torch.nn.functional.softplus` (β = 1; the float-stability linear
shortcut above the threshold is a numerical artifact, not modelled). -/
noncomputable def softplus (x : ℝ) : ℝ := Real.log (1 + Real.exp x)

/-! ## Tensors

Torch/numpy arrays are embedded as shape-carrying total functions; an array
is determined by its shape fields and its values on in-shape indices
(values at out-of-shape indices are irrelevant padding). -/

/-- A rank-2 array (`N × cols`). -/
structure Mat where
  rows : ℕ
  cols : ℕ
  f : ℕ → ℕ → ℝ

/-- A rank-3 array (`d0 × d1 × d2`). -/
structure Ten3 where
  d0 : ℕ
  d1 : ℕ
  d2 : ℕ
  f : ℕ → ℕ → ℕ → ℝ

/-- A feature tensor: rank 2 (`sh_degree = 0` direct color logits, `N × C`)
or rank 3 (`N × coefficients × channels`). -/
inductive Feat where
  | m2 (x : Mat)
  | t3 (x : Ten3)

/-- Placeholder for `torch.empty(0)` (an empty tensor; its rank is never
observed by any modelled operation). -/
def Mat.empty : Mat := ⟨0, 0, fun _ _ => 0⟩

/-- `t.transpose(1, 2)` on a rank-3 torch tensor. -/
def Ten3.transpose12 (t : Ten3) : Ten3 :=
  ⟨t.d0, t.d2, t.d1, fun i j k => t.f i k j⟩

/-- `t.flatten(start_dim=1)` on a rank-3 torch tensor (row-major). -/
def Ten3.flatten1 (t : Ten3) : Mat :=
  ⟨t.d0, t.d1 * t.d2, fun i j => t.f i (j / t.d2) (j % t.d2)⟩

/-- `t[:, 1:, :]` on a rank-3 tensor. -/
def Ten3.sliceFrom1 (t : Ten3) : Ten3 :=
  ⟨t.d0, t.d1 - 1, t.d2, fun i j k => t.f i (j + 1) k⟩

/-- Elementwise application of a scalar function to a rank-2 array. -/
noncomputable def mapMat (g : ℝ → ℝ) (a : Mat) : Mat :=
  ⟨a.rows, a.cols, fun i j => g (a.f i j)⟩

/-- Elementwise application of a scalar function to a rank-3 array. -/
noncomputable def mapTen3 (g : ℝ → ℝ) (t : Ten3) : Ten3 :=
  ⟨t.d0, t.d1, t.d2, fun i j k => g (t.f i j k)⟩

/-- `shape[1]` of a feature tensor. -/
def Feat.shape1 : Feat → ℕ
  | .m2 a => a.cols
  | .t3 t => t.d1

/-! ## The Gaussian scene model (source lines 259-354) -/

/-- The scaling-activation tag chosen by `setup_functions` (source lines
267-278); in the source it is the string field `scaling_activation_type`
whose only post-construction values are these three. -/
inductive ScalingActivationType where
  | exp
  | softplus
  | sigmoid
deriving DecidableEq

/-- The state of source class `GaussianModel` (lines 259-296): SH degree,
activation policy with its parameters, and the six raw tensors. The three
activation parameters are stored unconditionally here (the source stores
each only under the policy that reads it). -/
structure GaussianModel where
  sh_degree : ℤ
  scaling_activation_type : ScalingActivationType
  scale_min_act : ℝ
  scale_max_act : ℝ
  scale_multi_act : ℝ
  _xyz : Mat
  _features_dc : Feat
  _features_rest : Option Feat
  _scaling : Mat
  _rotation : Mat
  _opacity : Mat

/-- Source `GaussianModel.__init__` (lines 285-296) together with
`setup_functions` (lines 260-283): fields start as empty tensors
(`_features_rest` is `None` iff `sh_degree ≤ 0`), and an unrecognized
activation-policy name raises `NotImplementedError` (no instance is
created). The source's argument defaults are
`scaling_activation_type='exp'`, `scale_min_act=0.001`,
`scale_max_act=0.3`, `scale_multi_act=0.1`. -/
def GaussianModel.init (sh_degree : ℤ) (scaling_activation_type : String)
    (scale_min_act scale_max_act scale_multi_act : ℝ) : Option GaussianModel :=
  if scaling_activation_type = "exp" then
    some ⟨sh_degree, .exp, scale_min_act, scale_max_act, scale_multi_act,
      Mat.empty, .m2 Mat.empty,
      if sh_degree > 0 then some (.m2 Mat.empty) else none,
      Mat.empty, Mat.empty, Mat.empty⟩
  else if scaling_activation_type = "softplus" then
    some ⟨sh_degree, .softplus, scale_min_act, scale_max_act, scale_multi_act,
      Mat.empty, .m2 Mat.empty,
      if sh_degree > 0 then some (.m2 Mat.empty) else none,
      Mat.empty, Mat.empty, Mat.empty⟩
  else if scaling_activation_type = "sigmoid" then
    some ⟨sh_degree, .sigmoid, scale_min_act, scale_max_act, scale_multi_act,
      Mat.empty, .m2 Mat.empty,
      if sh_degree > 0 then some (.m2 Mat.empty) else none,
      Mat.empty, Mat.empty, Mat.empty⟩
  else none

/-- Source `GaussianModel.set_data` (lines 298-308). Note line 300 stores
the whole `features` tensor as `_features_dc` (`features.contiguous()`);
when `sh_degree > 0` the rest field gets `features[:, 1:, :]`. Slicing a
rank-2 `features` with three indices is an `IndexError`. -/
def GaussianModel.set_data (m : GaussianModel) (xyz : Mat) (features : Feat)
    (scaling rotation opacity : Mat) : Option GaussianModel :=
  if m.sh_degree > 0 then
    match features with
    | .t3 t => some { m with
        _xyz := xyz, _features_dc := features,
        _features_rest := some (.t3 t.sliceFrom1),
        _scaling := scaling, _rotation := rotation, _opacity := opacity }
    | .m2 _ => none
  else
    some { m with
      _xyz := xyz, _features_dc := features, _features_rest := none,
      _scaling := scaling, _rotation := rotation, _opacity := opacity }

/-- Source property `get_scaling` (lines 320-328): decode raw scale through
the activation policy. -/
noncomputable def GaussianModel.get_scaling (m : GaussianModel) : Mat :=
  match m.scaling_activation_type with
  | .exp => ⟨m._scaling.rows, m._scaling.cols, fun i j => Real.exp (m._scaling.f i j)⟩
  | .softplus => ⟨m._scaling.rows, m._scaling.cols,
      fun i j => softplus (m._scaling.f i j) * m.scale_multi_act⟩
  | .sigmoid => ⟨m._scaling.rows, m._scaling.cols,
      fun i j => m.scale_min_act +
        (m.scale_max_act - m.scale_min_act) * sigmoid (m._scaling.f i j)⟩

/-- Source property `get_features` (lines 338-345): for `sh_degree > 0`,
`torch.cat((features_dc, features_rest), dim=1)` (shape mismatch on the
other axes, a missing rest tensor, or rank-2 operands are fatal); for
`sh_degree ≤ 0`, `feature_activation = torch.sigmoid` applied to `_features_dc`. -/
noncomputable def GaussianModel.get_features (m : GaussianModel) : Option Feat :=
  if m.sh_degree > 0 then
    match m._features_dc, m._features_rest with
    | .t3 a, some (.t3 b) =>
        if a.d0 = b.d0 ∧ a.d2 = b.d2 then
          some (.t3 ⟨a.d0, a.d1 + b.d1, a.d2,
            fun i j k => if j < a.d1 then a.f i j k else b.f i (j - a.d1) k⟩)
        else none
    | _, _ => none
  else
    some (match m._features_dc with
      | .m2 a => .m2 (mapMat sigmoid a)
      | .t3 t => .t3 (mapTen3 sigmoid t))

/-- Source `get_covariance` (lines 351-354): the covariance kernel applied
batched to `get_scaling` and the raw `_rotation` rows; row `i`, packed
6-vector entries in columns 0..5. -/
noncomputable def GaussianModel.get_covariance (m : GaussianModel)
    (scaling_modifier : ℝ) : Mat :=
  ⟨m.get_scaling.rows, 6, fun i k =>
    if h : k < 6 then
      build_covariance_from_scaling_rotation
        (fun j => m.get_scaling.f i j.val) scaling_modifier
        (fun j => m._rotation.f i j.val) ⟨k, h⟩
    else 0⟩

/-! ## The scene file and its codec (source lines 356-599)

A PLY file is a vertex count and an ordered list of named properties, each
holding one value per vertex. Property names are embedded structurally:
`f_dc_<i>`, `f_rest_<i>`, `scale_<i>`, `rot_<i>` become constructors
carrying the numeric suffix `i`, and the fixed names `x,y,z,red,green,blue,
opacity` are atoms. -/

/-- A PLY property name. -/
inductive PropName where
  | x
  | y
  | z
  | red
  | green
  | blue
  | opacity
  | f_dc (i : ℕ)
  | f_rest (i : ℕ)
  | scale (i : ℕ)
  | rot (i : ℕ)
deriving DecidableEq

/-- A PLY property width: `f4` (float32), `f2` (float16), `u1` (uint8). -/
inductive PType where
  | f4
  | f2
  | u1
deriving DecidableEq

/-- A scene file: element count and ordered named columns. -/
structure PlyFile where
  n : ℕ
  props : List (PropName × (ℕ → ℝ))

/-- The columns of a rank-2 array, in order (`np.concatenate(..., axis=1)`
of several arrays is list append of their columns). -/
def matCols (a : Mat) : List (ℕ → ℝ) :=
  (List.range a.cols).map (fun j => fun i => a.f i j)

/-- Source `construct_dtypes` (lines 356-415): the ordered property
declarations. `none` models the fatal paths: the viewer assert
`sh_degree <= 3`, and `.shape[2]` on a rank-2 feature tensor. -/
def GaussianModel.construct_dtypes (m : GaussianModel)
    (use_fp16 enable_gs_viewer : Bool) : Option (List (PropName × PType)) := do
  if use_fp16 = false then
    let dcCount ←
      (if m.sh_degree > 0 then
        match m._features_dc with
        | .t3 t => some (t.d1 * t.d2)
        | .m2 _ => none
      else some m._features_dc.shape1)
    let restCount ←
      (if enable_gs_viewer then
        -- assert self.sh_degree <= 3
        if m.sh_degree ≤ 3 then
          if m.sh_degree > 0 then some ((((3:ℕ) + 1) ^ 2 - 1) * 3)
          else some 0
        else none
      else
        if m.sh_degree > 0 then
          match m._features_rest with
          | some (.t3 t) => some (t.d1 * t.d2)
          | _ => none
        else some 0)
    some ([(PropName.x, PType.f4), (.y, .f4), (.z, .f4),
        (.red, .u1), (.green, .u1), (.blue, .u1)] ++
      (List.range dcCount).map (fun i => (PropName.f_dc i, PType.f4)) ++
      (List.range restCount).map (fun i => (PropName.f_rest i, PType.f4)) ++
      [(PropName.opacity, PType.f4)] ++
      (List.range m._scaling.cols).map (fun i => (PropName.scale i, PType.f4)) ++
      (List.range m._rotation.cols).map (fun i => (PropName.rot i, PType.f4)))
  else
    -- fp16 variant: f_dc always uses shape[1]*shape[2]; no viewer padding
    let dcCount ←
      (match m._features_dc with
      | .t3 t => some (t.d1 * t.d2)
      | .m2 _ => none)
    let restCount ←
      (if m.sh_degree > 0 then
        match m._features_rest with
        | some (.t3 t) => some (t.d1 * t.d2)
        | _ => none
      else some 0)
    some ([(PropName.x, PType.f2), (.y, .f2), (.z, .f2),
        (.red, .u1), (.green, .u1), (.blue, .u1)] ++
      (List.range dcCount).map (fun i => (PropName.f_dc i, PType.f2)) ++
      (List.range restCount).map (fun i => (PropName.f_rest i, PType.f2)) ++
      [(PropName.opacity, PType.f2)] ++
      (List.range m._scaling.cols).map (fun i => (PropName.scale i, PType.f2)) ++
      (List.range m._rotation.cols).map (fun i => (PropName.rot i, PType.f2)))

/-- Source `save_ply` (lines 468-530). `none` models every fatal path
(rank mismatches, the viewer assert via `construct_dtypes`, and the final
`elements[:] = ...` which requires exactly one column per declared
property). In the `color_code` branch the RGB values come from a
matplotlib colormap; they are abstracted as 0 (no modelled reader inspects
RGB). `np.concatenate` additionally requires equal row counts; callers in
the theorems use models whose tensors all have `N` rows. -/
noncomputable def GaussianModel.save_ply (m : GaussianModel)
    (use_fp16 enable_gs_viewer color_code : Bool) : Option PlyFile := do
  let xyz := m._xyz
  let f_dc ←
    (if m.sh_degree > 0 then
      match m._features_dc with
      | .t3 t => some t.transpose12.flatten1
      | .m2 _ => none
    else
      match m._features_dc with
      | .m2 a => some a
      | .t3 _ => none)
  let rgb : Mat :=
    if color_code = false then
      ⟨f_dc.rows, f_dc.cols,
        fun i j => ((⌊min (max (SH2RGB (f_dc.f i j) * 255) 0) 255⌋ : ℤ) : ℝ)⟩
    else
      ⟨xyz.rows, 3, fun _ _ => 0⟩
  let opacities := m._opacity
  let scale : Mat :=
    match m.scaling_activation_type with
    | .exp => m._scaling
    | .softplus => ⟨m._scaling.rows, m._scaling.cols,
        fun i j => Real.log (softplus (m._scaling.f i j) * m.scale_multi_act)⟩
    | .sigmoid => ⟨m._scaling.rows, m._scaling.cols,
        fun i j => Real.log (m.scale_min_act +
          (m.scale_max_act - m.scale_min_act) * sigmoid (m._scaling.f i j))⟩
  let rotation := m._rotation
  let dtype_full ← m.construct_dtypes use_fp16 enable_gs_viewer
  let f_rest_0 : Option Mat ←
    (if m.sh_degree > 0 then
      match m._features_rest with
      | some (.t3 t) => some (some t.transpose12.flatten1)
      | _ => none
    else some none)
  let f_rest : Option Mat :=
    if enable_gs_viewer then
      if m.sh_degree > 0 then
        match f_rest_0 with
        | none => some ⟨xyz.rows, 3 * (((3:ℕ) + 1) ^ 2 - 1), fun _ _ => 0⟩
        | some fr =>
          if fr.cols < 3 * (((3:ℕ) + 1) ^ 2 - 1) then
            some ⟨xyz.rows, 3 * (((3:ℕ) + 1) ^ 2 - 1),
              fun i j => if j < fr.cols then fr.f i j else 0⟩
          else some fr
      else f_rest_0
    else f_rest_0
  let colsList : List (ℕ → ℝ) :=
    matCols xyz ++ matCols rgb ++ matCols f_dc ++
      (match f_rest with
        | some fr => matCols fr
        | none => []) ++
      matCols opacities ++ matCols scale ++ matCols rotation
  if colsList.length = dtype_full.length then
    some ⟨xyz.rows, (List.zip dtype_full colsList).map (fun p => (p.1.1, p.2))⟩
  else none

/-- `plydata.elements[0][name]`: the first property with the given name. -/
def lookup (file : PlyFile) (p : PropName) : Option (ℕ → ℝ) :=
  (file.props.find? (fun q => q.1 == p)).map (fun q => q.2)

/-- Name-pattern filters of `load_ply`: properties whose name starts with
`f_rest_`, `scale_`, `rot` respectively. -/
def isFRestProp : PropName → Bool
  | .f_rest _ => true
  | _ => false

def isScaleProp : PropName → Bool
  | .scale _ => true
  | _ => false

def isRotProp : PropName → Bool
  | .rot _ => true
  | _ => false

/-- `int(name.split("_")[-1])`: the numeric suffix of an indexed name. -/
def suffixOf : PropName → ℕ
  | .f_dc i => i
  | .f_rest i => i
  | .scale i => i
  | .rot i => i
  | _ => 0

/-- Stable insertion step for `sortByKey`. -/
def insertByKey {α : Type} (key : α → ℕ) (a : α) : List α → List α
  | [] => [a]
  | b :: l => if key a ≤ key b then a :: b :: l else b :: insertByKey key a l

/-- Python `sorted(..., key=...)`: stable sort by a numeric key. -/
def sortByKey {α : Type} (key : α → ℕ) : List α → List α
  | [] => []
  | a :: l => insertByKey key a (sortByKey key l)

/-- Source `load_ply` (lines 532-599). Missing fixed-name fields are fatal
(KeyError); for `sh_degree > 0` the count of `f_rest_*` properties must be
exactly `3*(sh_degree+1)^2 - 3` (assert on line 557), and the sorted
columns are reshaped to `(N, 3, (sh_degree+1)^2 - 1)`; all loaded feature
tensors are transposed on dims (1,2) before storage. For `sh_degree ≤ 0`
the `_features_rest` field is left untouched. -/
def GaussianModel.load_ply (m : GaussianModel) (file : PlyFile) :
    Option GaussianModel := do
  let colx ← lookup file .x
  let coly ← lookup file .y
  let colz ← lookup file .z
  let xyz : Mat := ⟨file.n, 3, fun i j =>
    if j = 0 then colx i else if j = 1 then coly i else if j = 2 then colz i else 0⟩
  let colop ← lookup file .opacity
  let opacities : Mat := ⟨file.n, 1, fun i j => if j = 0 then colop i else 0⟩
  let dc0 ← lookup file (.f_dc 0)
  let dc1 ← lookup file (.f_dc 1)
  let dc2 ← lookup file (.f_dc 2)
  let features_dc : Ten3 := ⟨file.n, 3, 1, fun i c k =>
    if k = 0 then
      (if c = 0 then dc0 i else if c = 1 then dc1 i else if c = 2 then dc2 i else 0)
    else 0⟩
  -- the source's locals `extra_f_names` and the reshape width
  -- `(sh_degree+1)^2 - 1` are inlined below
  let rest ←
    (if m.sh_degree > 0 then
      if ((sortByKey (fun p => suffixOf p.1)
          (file.props.filter (fun p => isFRestProp p.1))).length : ℤ) =
          3 * (m.sh_degree + 1) ^ 2 - 3 then
        some (some (⟨file.n, 3, ((m.sh_degree + 1) ^ 2 - 1).toNat, fun i c j =>
          match (sortByKey (fun p => suffixOf p.1)
              (file.props.filter (fun p => isFRestProp p.1))).get?
              (c * ((m.sh_degree + 1) ^ 2 - 1).toNat + j) with
          | some p => p.2 i
          | none => 0⟩ : Ten3))
      else none
    else some none)
  let scaleProps := sortByKey (fun p => suffixOf p.1)
    (file.props.filter (fun p => isScaleProp p.1))
  let scales : Mat := ⟨file.n, scaleProps.length, fun i idx =>
    match scaleProps.get? idx with
    | some p => p.2 i
    | none => 0⟩
  let rotProps := sortByKey (fun p => suffixOf p.1)
    (file.props.filter (fun p => isRotProp p.1))
  let rots : Mat := ⟨file.n, rotProps.length, fun i idx =>
    match rotProps.get? idx with
    | some p => p.2 i
    | none => 0⟩
  some { m with
    _xyz := xyz,
    _features_dc := .t3 features_dc.transpose12,
    _features_rest :=
      match rest with
      | some t => some (.t3 t.transpose12)
      | none => m._features_rest,
    _opacity := opacities,
    _scaling := scales,
    _rotation := rots }

/-! ## Camera (source lines 202-256) -/

/-- Source `Camera.__init__` inputs: camera-to-world pose and normalized
pinhole intrinsics. -/
structure Camera where
  C2W : Matrix (Fin 4) (Fin 4) ℝ
  fx : ℝ
  fy : ℝ
  cx : ℝ
  cy : ℝ
  h : ℕ
  w : ℕ

noncomputable def Camera.W2C (c : Camera) : Matrix (Fin 4) (Fin 4) ℝ := c.C2W⁻¹

def Camera.znear (_ : Camera) : ℝ := 0.01

def Camera.zfar (_ : Camera) : ℝ := 100.0

noncomputable def Camera.tanfovX (c : Camera) : ℝ := 1 / (2 * c.fx)

noncomputable def Camera.tanfovY (c : Camera) : ℝ := 1 / (2 * c.fy)

noncomputable def Camera.fovX (c : Camera) : ℝ := 2 * Real.arctan c.tanfovX

noncomputable def Camera.fovY (c : Camera) : ℝ := 2 * Real.arctan c.tanfovY

noncomputable def Camera.shiftX (c : Camera) : ℝ := 2 * c.cx - 1

noncomputable def Camera.shiftY (c : Camera) : ℝ := 2 * c.cy - 1

/-- Source `getProjectionMatrix` (lines 225-245), before the final
transpose. -/
noncomputable def getProjectionMatrix (znear zfar fovX fovY shiftX shiftY : ℝ) :
    Matrix (Fin 4) (Fin 4) ℝ :=
  let tanHalfFovY := Real.tan (fovY / 2)
  let tanHalfFovX := Real.tan (fovX / 2)
  let top := tanHalfFovY * znear
  let bottom := -top
  let right := tanHalfFovX * znear
  let left := -right
  !![2 * znear / (right - left), 0, (right + left) / (right - left) + shiftX, 0;
     0, 2 * znear / (top - bottom), (top + bottom) / (top - bottom) + shiftY, 0;
     0, 0, zfar / (zfar - znear), -(zfar * znear) / (zfar - znear);
     0, 0, 1, 0]

noncomputable def Camera.world_view_transform (c : Camera) :
    Matrix (Fin 4) (Fin 4) ℝ := c.W2C.transpose

noncomputable def Camera.projection_matrix (c : Camera) :
    Matrix (Fin 4) (Fin 4) ℝ :=
  (getProjectionMatrix c.znear c.zfar c.fovX c.fovY c.shiftX c.shiftY).transpose

noncomputable def Camera.full_proj_transform (c : Camera) :
    Matrix (Fin 4) (Fin 4) ℝ :=
  c.world_view_transform * c.projection_matrix

noncomputable def Camera.camera_center (c : Camera) : Fin 3 → ℝ :=
  fun i => c.C2W i.castSucc 3

/-! ## Concrete test fixtures used by witnesses and counterexamples -/

/-- A fresh degree-1 model (policy `exp`, source defaults). -/
noncomputable def mC8 : GaussianModel :=
  ⟨1, .exp, 0.001, 0.3, 0.1, Mat.empty, .m2 Mat.empty, some (.m2 Mat.empty),
    Mat.empty, Mat.empty, Mat.empty⟩

/-- A one-vertex scene file with the fixed-name fields and exactly 9
`f_rest_*` properties (the degree-1 count), all zeros. -/
noncomputable def c8File : PlyFile :=
  ⟨1, [(.x, fun _ => 0), (.y, fun _ => 0), (.z, fun _ => 0),
    (.opacity, fun _ => 0),
    (.f_dc 0, fun _ => 0), (.f_dc 1, fun _ => 0), (.f_dc 2, fun _ => 0)] ++
    (List.range 9).map (fun j => (PropName.f_rest j, fun _ => (0 : ℝ)))⟩

/-- A one-primitive degree-0 model with `sigmoid` policy,
`scale_min_act = 1/2`, `scale_max_act = 3/2`, and all-zero raw tensors:
its decoded scale is exactly 1, a fixed point of the save/load scale
asymmetry. -/
noncomputable def mC1sig : GaussianModel :=
  ⟨0, .sigmoid, 1/2, 3/2, 1/10, ⟨1, 3, fun _ _ => 0⟩, .m2 ⟨1, 3, fun _ _ => 0⟩,
    none, ⟨1, 3, fun _ _ => 0⟩, ⟨1, 4, fun _ _ => 0⟩, ⟨1, 1, fun _ _ => 0⟩⟩

/-- A fresh degree-0 model with the same `sigmoid` policy parameters. -/
noncomputable def mC1sigReader : GaussianModel :=
  ⟨0, .sigmoid, 1/2, 3/2, 1/10, Mat.empty, .m2 Mat.empty, none,
    Mat.empty, Mat.empty, Mat.empty⟩

/-- A one-primitive degree-1 model whose 9 SH-rest coefficients are all 1
(DC and the other tensors zero). -/
noncomputable def mC3 : GaussianModel :=
  ⟨1, .exp, 0.001, 0.3, 0.1, ⟨1, 3, fun _ _ => 0⟩, .t3 ⟨1, 1, 3, fun _ _ _ => 0⟩,
    some (.t3 ⟨1, 3, 3, fun _ _ _ => 1⟩),
    ⟨1, 3, fun _ _ => 0⟩, ⟨1, 4, fun _ _ => 0⟩, ⟨1, 1, fun _ _ => 0⟩⟩

/-- The property list of the viewer-variant save of `mC3`, written out
(definitionally equal to what `save_ply` produces): position, RGB, DC,
45 SH-rest columns (9 ones then 36 zeros), opacity, scale, rotation. -/
noncomputable def c3props : List (PropName × (ℕ → ℝ)) :=
  [(.x, fun _ => 0), (.y, fun _ => 0), (.z, fun _ => 0),
   (.red, fun _ => ((⌊min (max (SH2RGB 0 * 255) 0) 255⌋ : ℤ) : ℝ)),
   (.green, fun _ => ((⌊min (max (SH2RGB 0 * 255) 0) 255⌋ : ℤ) : ℝ)),
   (.blue, fun _ => ((⌊min (max (SH2RGB 0 * 255) 0) 255⌋ : ℤ) : ℝ)),
   (.f_dc 0, fun _ => 0), (.f_dc 1, fun _ => 0), (.f_dc 2, fun _ => 0)] ++
  (List.range 45).map
    (fun j => (PropName.f_rest j, fun _ => if j < 9 then (1 : ℝ) else 0)) ++
  [(.opacity, fun _ => 0),
   (.scale 0, fun _ => 0), (.scale 1, fun _ => 0), (.scale 2, fun _ => 0),
   (.rot 0, fun _ => 0), (.rot 1, fun _ => 0), (.rot 2, fun _ => 0),
   (.rot 3, fun _ => 0)]

/-- The viewer-variant save of a general degree-1 model (tensors as in the
C3 theorem), written out; `scol` is the policy-transformed scale data. -/
noncomputable def c3fileOf (N : ℕ) (xf sf rf opf : ℕ → ℕ → ℝ)
    (dcf restf : ℕ → ℕ → ℕ → ℝ) (scol : ℕ → ℕ → ℝ) : PlyFile :=
  ⟨N,
   [(.x, fun i => xf i 0), (.y, fun i => xf i 1), (.z, fun i => xf i 2),
    (.red, fun i =>
      ((⌊min (max (SH2RGB (dcf i (0 % 1) (0 / 1)) * 255) 0) 255⌋ : ℤ) : ℝ)),
    (.green, fun i =>
      ((⌊min (max (SH2RGB (dcf i (1 % 1) (1 / 1)) * 255) 0) 255⌋ : ℤ) : ℝ)),
    (.blue, fun i =>
      ((⌊min (max (SH2RGB (dcf i (2 % 1) (2 / 1)) * 255) 0) 255⌋ : ℤ) : ℝ)),
    (.f_dc 0, fun i => dcf i (0 % 1) (0 / 1)),
    (.f_dc 1, fun i => dcf i (1 % 1) (1 / 1)),
    (.f_dc 2, fun i => dcf i (2 % 1) (2 / 1))] ++
   (List.range 45).map (fun j =>
     (PropName.f_rest j, fun i => if j < 9 then restf i (j % 3) (j / 3) else 0)) ++
   [(.opacity, fun i => opf i 0),
    (.scale 0, fun i => scol i 0), (.scale 1, fun i => scol i 1),
    (.scale 2, fun i => scol i 2),
    (.rot 0, fun i => rf i 0), (.rot 1, fun i => rf i 1),
    (.rot 2, fun i => rf i 2), (.rot 3, fun i => rf i 3)]⟩

/-- A fresh degree-3 model (a "degree-3 reader"). -/
noncomputable def mC3reader : GaussianModel :=
  ⟨3, .exp, 0.001, 0.3, 0.1, Mat.empty, .m2 Mat.empty, some (.m2 Mat.empty),
    Mat.empty, Mat.empty, Mat.empty⟩

/-! ## Helper lemmas -/

lemma build_rotation_q_eq_hrot {w x y z : ℝ} (h : w * w + x * x + y * y + z * z = 1) :
    build_rotation_q w x y z = hrot w x y z := by
  unfold build_rotation_q hrot
  ext i j
  fin_cases i <;> fin_cases j <;> simp <;> linear_combination -h

lemma hrot_transpose_mul_self (w x y z : ℝ) :
    (hrot w x y z).transpose * hrot w x y z =
      ((w * w + x * x + y * y + z * z) ^ 2) • (1 : Matrix (Fin 3) (Fin 3) ℝ) := by
  unfold hrot
  ext i j
  simp only [Matrix.mul_apply, Matrix.transpose_apply, Fin.sum_univ_three,
    Matrix.smul_apply, smul_eq_mul]
  fin_cases i <;> fin_cases j <;> simp [Matrix.one_apply] <;> ring

lemma hrot_det (w x y z : ℝ) :
    (hrot w x y z).det = (w * w + x * x + y * y + z * z) ^ 3 := by
  unfold hrot
  rw [Matrix.det_fin_three]
  simp
  ring

/-- `build_rotation_q` is an even function of the quaternion. -/
lemma build_rotation_q_neg (w x y z : ℝ) :
    build_rotation_q (-w) (-x) (-y) (-z) = build_rotation_q w x y z := by
  unfold build_rotation_q
  ext i j
  fin_cases i <;> fin_cases j <;> simp

/-- On a unit quaternion, the normalization in `build_rotation` is the identity. -/
lemma build_rotation_of_unit {r : Fin 4 → ℝ}
    (h : r 0 * r 0 + r 1 * r 1 + r 2 * r 2 + r 3 * r 3 = 1) :
    build_rotation r = build_rotation_q (r 0) (r 1) (r 2) (r 3) := by
  unfold build_rotation quatNorm
  rw [h, Real.sqrt_one]
  simp

lemma sym_of_packed_strip {M : Matrix (Fin 3) (Fin 3) ℝ} (hM : M.transpose = M) :
    sym_of_packed (strip_symmetric M) = M := by
  have h' : ∀ a b : Fin 3, M a b = M b a := fun a b => congrFun (congrFun hM b) a
  unfold sym_of_packed strip_symmetric strip_lowerdiag
  ext i j
  fin_cases i <;> fin_cases j <;>
    simp <;>
    first
      | rfl
      | exact h' _ _
      | exact (h' _ _).symm

lemma mul_transpose_self_symm (L : Matrix (Fin 3) (Fin 3) ℝ) :
    (L * L.transpose).transpose = L * L.transpose := by
  rw [Matrix.transpose_mul, Matrix.transpose_transpose]

lemma mul_transpose_self_posSemidef (L : Matrix (Fin 3) (Fin 3) ℝ) :
    (L * L.transpose).PosSemidef := by
  have h := Matrix.posSemidef_self_mul_conjTranspose L
  rwa [Matrix.conjTranspose_eq_transpose_of_trivial] at h

lemma quatNorm_smul (c : ℝ) (q : Fin 4 → ℝ) :
    quatNorm (fun i => c * q i) = |c| * quatNorm q := by
  unfold quatNorm
  have h : (c * q 0) * (c * q 0) + (c * q 1) * (c * q 1) +
      (c * q 2) * (c * q 2) + (c * q 3) * (c * q 3) =
      c ^ 2 * (q 0 * q 0 + q 1 * q 1 + q 2 * q 2 + q 3 * q 3) := by ring
  show Real.sqrt ((c * q 0) * (c * q 0) + (c * q 1) * (c * q 1) +
      (c * q 2) * (c * q 2) + (c * q 3) * (c * q 3)) = _
  rw [h, Real.sqrt_mul (sq_nonneg c), Real.sqrt_sq_eq_abs]

lemma quatNorm_pos {q : Fin 4 → ℝ}
    (hq : q 0 * q 0 + q 1 * q 1 + q 2 * q 2 + q 3 * q 3 ≠ 0) :
    0 < quatNorm q := by
  have h0 : 0 ≤ q 0 * q 0 + q 1 * q 1 + q 2 * q 2 + q 3 * q 3 :=
    add_nonneg (add_nonneg (add_nonneg (mul_self_nonneg _) (mul_self_nonneg _))
      (mul_self_nonneg _)) (mul_self_nonneg _)
  exact Real.sqrt_pos.mpr (h0.lt_of_ne (Ne.symm hq))

/-- Rescaling the raw quaternion by a nonzero scalar does not change
`build_rotation`: the normalization divides the scalar out (up to a sign
flip, under which the quadratic formula is invariant). -/
lemma build_rotation_smul (c : ℝ) (q : Fin 4 → ℝ) (hc : c ≠ 0)
    (hq : q 0 * q 0 + q 1 * q 1 + q 2 * q 2 + q 3 * q 3 ≠ 0) :
    build_rotation (fun i => c * q i) = build_rotation q := by
  have hN : 0 < quatNorm q := quatNorm_pos hq
  unfold build_rotation
  rw [quatNorm_smul]
  show build_rotation_q (c * q 0 / (|c| * quatNorm q)) (c * q 1 / (|c| * quatNorm q))
      (c * q 2 / (|c| * quatNorm q)) (c * q 3 / (|c| * quatNorm q)) = _
  rcases hc.lt_or_lt with hneg | hpos
  · have e : ∀ u : ℝ, c * u / (|c| * quatNorm q) = -(u / quatNorm q) := by
      intro u
      rw [abs_of_neg hneg]
      field_simp
      ring
    rw [e (q 0), e (q 1), e (q 2), e (q 3)]
    exact build_rotation_q_neg _ _ _ _
  · have e : ∀ u : ℝ, c * u / (|c| * quatNorm q) = u / quatNorm q := by
      intro u
      rw [abs_of_pos hpos, mul_div_mul_left u (quatNorm q) hc]
    rw [e (q 0), e (q 1), e (q 2), e (q 3)]

lemma build_covariance_smul (s : Fin 3 → ℝ) (m' : ℝ) (c : ℝ) (q : Fin 4 → ℝ)
    (hc : c ≠ 0)
    (hq : q 0 * q 0 + q 1 * q 1 + q 2 * q 2 + q 3 * q 3 ≠ 0) :
    build_covariance_from_scaling_rotation s m' (fun i => c * q i) =
      build_covariance_from_scaling_rotation s m' q := by
  unfold build_covariance_from_scaling_rotation build_scaling_rotation
  rw [build_rotation_smul c q hc hq]

/-! ## C6: RGB/SH conversion -/

/-- C6: for every real `x`, `RGB2SH (SH2RGB x) = x` and `SH2RGB (RGB2SH x) = x`
exactly over the reals, with `C0 = 0.28209479177387814`: the two conversions
are exact inverses. -/
theorem c6_rgb_sh_inverses (x : ℝ) :
    RGB2SH (SH2RGB x) = x ∧ SH2RGB (RGB2SH x) = x ∧ C0 = 0.28209479177387814 := by
  have hC0 : C0 ≠ 0 := by unfold C0; norm_num
  refine ⟨?_, ?_, rfl⟩
  · unfold RGB2SH SH2RGB
    field_simp
  · unfold RGB2SH SH2RGB
    field_simp

/-! ## C5: rotation matrices from unit quaternions -/

/-- C5: for every unit quaternion `r`, `build_rotation r` is orthonormal
(`Rᵀ·R = 1`) with determinant exactly 1 over the reals, and `build_rotation`
is invariant to sign flip: `build_rotation (-r) = build_rotation r`. -/
theorem c5_build_rotation_orthonormal (r : Fin 4 → ℝ)
    (h : r 0 * r 0 + r 1 * r 1 + r 2 * r 2 + r 3 * r 3 = 1) :
    (build_rotation r).transpose * build_rotation r = 1 ∧
      (build_rotation r).det = 1 ∧
      build_rotation (-r) = build_rotation r := by
  have hq := build_rotation_of_unit h
  have hH := build_rotation_q_eq_hrot h
  refine ⟨?_, ?_, ?_⟩
  · rw [hq, hH, hrot_transpose_mul_self, h]
    simp
  · rw [hq, hH, hrot_det, h]
    norm_num
  · have hneg : (-r) 0 * (-r) 0 + (-r) 1 * (-r) 1 + (-r) 2 * (-r) 2 + (-r) 3 * (-r) 3
        = 1 := by
      simpa only [Pi.neg_apply, neg_mul_neg] using h
    rw [build_rotation_of_unit hneg, hq]
    simp only [Pi.neg_apply]
    exact build_rotation_q_neg (r 0) (r 1) (r 2) (r 3)

/-- Witness for C5 at the concrete unit quaternion `(1/2, 1/2, 1/2, 1/2)`. -/
theorem c5_build_rotation_orthonormal_witness :
    ((fun _ => (1/2 : ℝ)) 0 * (fun _ => (1/2 : ℝ)) 0 + (fun _ => (1/2 : ℝ)) 1 * (fun _ => (1/2 : ℝ)) 1
      + (fun _ => (1/2 : ℝ)) 2 * (fun _ => (1/2 : ℝ)) 2 + (fun _ => (1/2 : ℝ)) 3 * (fun _ => (1/2 : ℝ)) 3 = 1) ∧
    ((build_rotation (fun _ => (1/2 : ℝ))).transpose * build_rotation (fun _ => (1/2 : ℝ)) = 1 ∧
      (build_rotation (fun _ => (1/2 : ℝ))).det = 1 ∧
      build_rotation (-(fun _ => (1/2 : ℝ))) = build_rotation (fun _ => (1/2 : ℝ))) :=
  ⟨by norm_num, c5_build_rotation_orthonormal (fun _ => (1/2 : ℝ)) (by norm_num)⟩

/-! ## C4: the covariance kernel -/

/-- C4: for every real 3-vector `scale`, real `modifier` and quaternion `q`
of nonzero norm, the covariance kernel returns the 6 entries of
`L·Lᵗ` (`L = build_rotation q · diag(modifier·scale)`) in upper-triangular
order xx,xy,xz,yy,yz,zz, and the symmetric 3×3 matrix these 6 entries
describe equals `L·Lᵗ` and is positive semi-definite. -/
theorem c4_covariance_kernel (scale : Fin 3 → ℝ) (modifier : ℝ) (q : Fin 4 → ℝ)
    (h : q 0 * q 0 + q 1 * q 1 + q 2 * q 2 + q 3 * q 3 ≠ 0) :
    (build_covariance_from_scaling_rotation scale modifier q 0 =
        (build_rotation q * Matrix.diagonal (fun i => modifier * scale i) *
          (build_rotation q * Matrix.diagonal (fun i => modifier * scale i)).transpose) 0 0 ∧
      build_covariance_from_scaling_rotation scale modifier q 1 =
        (build_rotation q * Matrix.diagonal (fun i => modifier * scale i) *
          (build_rotation q * Matrix.diagonal (fun i => modifier * scale i)).transpose) 0 1 ∧
      build_covariance_from_scaling_rotation scale modifier q 2 =
        (build_rotation q * Matrix.diagonal (fun i => modifier * scale i) *
          (build_rotation q * Matrix.diagonal (fun i => modifier * scale i)).transpose) 0 2 ∧
      build_covariance_from_scaling_rotation scale modifier q 3 =
        (build_rotation q * Matrix.diagonal (fun i => modifier * scale i) *
          (build_rotation q * Matrix.diagonal (fun i => modifier * scale i)).transpose) 1 1 ∧
      build_covariance_from_scaling_rotation scale modifier q 4 =
        (build_rotation q * Matrix.diagonal (fun i => modifier * scale i) *
          (build_rotation q * Matrix.diagonal (fun i => modifier * scale i)).transpose) 1 2 ∧
      build_covariance_from_scaling_rotation scale modifier q 5 =
        (build_rotation q * Matrix.diagonal (fun i => modifier * scale i) *
          (build_rotation q * Matrix.diagonal (fun i => modifier * scale i)).transpose) 2 2) ∧
    sym_of_packed (build_covariance_from_scaling_rotation scale modifier q) =
      build_rotation q * Matrix.diagonal (fun i => modifier * scale i) *
        (build_rotation q * Matrix.diagonal (fun i => modifier * scale i)).transpose ∧
    (sym_of_packed (build_covariance_from_scaling_rotation scale modifier q)).PosSemidef := by
  have hstrip : build_covariance_from_scaling_rotation scale modifier q =
      strip_lowerdiag (build_rotation q * Matrix.diagonal (fun i => modifier * scale i) *
        (build_rotation q * Matrix.diagonal (fun i => modifier * scale i)).transpose) := rfl
  have hsym : sym_of_packed (build_covariance_from_scaling_rotation scale modifier q) =
      build_rotation q * Matrix.diagonal (fun i => modifier * scale i) *
        (build_rotation q * Matrix.diagonal (fun i => modifier * scale i)).transpose :=
    sym_of_packed_strip (mul_transpose_self_symm _)
  refine ⟨⟨?_, ?_, ?_, ?_, ?_, ?_⟩, hsym, ?_⟩
  · rw [hstrip]; rfl
  · rw [hstrip]; rfl
  · rw [hstrip]; rfl
  · rw [hstrip]; rfl
  · rw [hstrip]; rfl
  · rw [hstrip]; rfl
  · rw [hsym]
    exact mul_transpose_self_posSemidef _

/-- Witness for C4 at `scale = (1,1,1)`, `modifier = 1`, `q = (1,1,1,1)`. -/
theorem c4_covariance_kernel_witness :
    ((fun _ => (1:ℝ)) 0 * (fun _ => (1:ℝ)) 0 + (fun _ => (1:ℝ)) 1 * (fun _ => (1:ℝ)) 1 +
      (fun _ => (1:ℝ)) 2 * (fun _ => (1:ℝ)) 2 + (fun _ => (1:ℝ)) 3 * (fun _ => (1:ℝ)) 3 ≠ 0) ∧
    (sym_of_packed (build_covariance_from_scaling_rotation
      (fun _ => (1:ℝ)) 1 (fun _ => (1:ℝ)))).PosSemidef :=
  ⟨by norm_num,
    (c4_covariance_kernel (fun _ => (1:ℝ)) 1 (fun _ => (1:ℝ)) (by norm_num)).2.2⟩

/-! ## C10: covariance depends on the raw rotation only through its direction -/

/-- C10: for every quaternion `q` of nonzero norm and nonzero scalar `c`,
`build_rotation (c·q) = build_rotation q`; consequently the covariance
kernel, and `get_covariance` of a model whose raw rotation rows are
rescaled by `c`, return the same packed 6-vectors. -/
theorem c10_rotation_scale_invariance (q : Fin 4 → ℝ) (c : ℝ)
    (m : GaussianModel) (modifier : ℝ)
    (hc : c ≠ 0)
    (hq : q 0 * q 0 + q 1 * q 1 + q 2 * q 2 + q 3 * q 3 ≠ 0)
    (hrows : ∀ i, i < m._rotation.rows →
      m._rotation.f i 0 * m._rotation.f i 0 + m._rotation.f i 1 * m._rotation.f i 1 +
        m._rotation.f i 2 * m._rotation.f i 2 + m._rotation.f i 3 * m._rotation.f i 3 ≠ 0) :
    build_rotation (fun i => c * q i) = build_rotation q ∧
    (∀ (s : Fin 3 → ℝ) (mo : ℝ),
      build_covariance_from_scaling_rotation s mo (fun i => c * q i) =
        build_covariance_from_scaling_rotation s mo q) ∧
    (∀ i k, i < m._rotation.rows →
      (({ m with
          _rotation := ⟨m._rotation.rows, m._rotation.cols,
            fun i j => c * m._rotation.f i j⟩ } : GaussianModel).get_covariance
        modifier).f i k = (m.get_covariance modifier).f i k) := by
  refine ⟨build_rotation_smul c q hc hq, ?_, ?_⟩
  · intro s mo
    exact build_covariance_smul s mo c q hc hq
  · intro i k hi
    simp only [GaussianModel.get_covariance]
    by_cases hk : k < 6
    · simp only [dif_pos hk]
      exact congrFun (build_covariance_smul
        (fun j => m.get_scaling.f i j.val) modifier c
        (fun j => m._rotation.f i j.val) hc (hrows i hi)) ⟨k, hk⟩
    · simp only [dif_neg hk]

/-- Witness for C10: a one-primitive model with all-ones rotation row,
`q = (1,1,1,1)`, `c = 2`. -/
theorem c10_rotation_scale_invariance_witness :
    ((2:ℝ) ≠ 0) ∧
    ((fun _ => (1:ℝ)) 0 * (fun _ => (1:ℝ)) 0 + (fun _ => (1:ℝ)) 1 * (fun _ => (1:ℝ)) 1 +
      (fun _ => (1:ℝ)) 2 * (fun _ => (1:ℝ)) 2 + (fun _ => (1:ℝ)) 3 * (fun _ => (1:ℝ)) 3 ≠ 0) ∧
    (∀ i, i < (⟨0, .exp, 0, 0, 0, Mat.empty, .m2 Mat.empty, none, Mat.empty,
        ⟨1, 4, fun _ _ => 1⟩, Mat.empty⟩ : GaussianModel)._rotation.rows →
      (⟨0, .exp, 0, 0, 0, Mat.empty, .m2 Mat.empty, none, Mat.empty,
        ⟨1, 4, fun _ _ => 1⟩, Mat.empty⟩ : GaussianModel)._rotation.f i 0 *
        (⟨0, .exp, 0, 0, 0, Mat.empty, .m2 Mat.empty, none, Mat.empty,
          ⟨1, 4, fun _ _ => 1⟩, Mat.empty⟩ : GaussianModel)._rotation.f i 0 +
      (⟨0, .exp, 0, 0, 0, Mat.empty, .m2 Mat.empty, none, Mat.empty,
        ⟨1, 4, fun _ _ => 1⟩, Mat.empty⟩ : GaussianModel)._rotation.f i 1 *
        (⟨0, .exp, 0, 0, 0, Mat.empty, .m2 Mat.empty, none, Mat.empty,
          ⟨1, 4, fun _ _ => 1⟩, Mat.empty⟩ : GaussianModel)._rotation.f i 1 +
      (⟨0, .exp, 0, 0, 0, Mat.empty, .m2 Mat.empty, none, Mat.empty,
        ⟨1, 4, fun _ _ => 1⟩, Mat.empty⟩ : GaussianModel)._rotation.f i 2 *
        (⟨0, .exp, 0, 0, 0, Mat.empty, .m2 Mat.empty, none, Mat.empty,
          ⟨1, 4, fun _ _ => 1⟩, Mat.empty⟩ : GaussianModel)._rotation.f i 2 +
      (⟨0, .exp, 0, 0, 0, Mat.empty, .m2 Mat.empty, none, Mat.empty,
        ⟨1, 4, fun _ _ => 1⟩, Mat.empty⟩ : GaussianModel)._rotation.f i 3 *
        (⟨0, .exp, 0, 0, 0, Mat.empty, .m2 Mat.empty, none, Mat.empty,
          ⟨1, 4, fun _ _ => 1⟩, Mat.empty⟩ : GaussianModel)._rotation.f i 3 ≠ 0) ∧
    build_rotation (fun i => 2 * (fun _ => (1:ℝ)) i) = build_rotation (fun _ => (1:ℝ)) :=
  ⟨by norm_num, by norm_num, by intro i _; norm_num,
    (c10_rotation_scale_invariance (fun _ => (1:ℝ)) 2
      (⟨0, .exp, 0, 0, 0, Mat.empty, .m2 Mat.empty, none, Mat.empty,
        ⟨1, 4, fun _ _ => 1⟩, Mat.empty⟩ : GaussianModel) 1
      (by norm_num) (by norm_num) (by intro i _; norm_num)).1⟩

/-! ## C7: camera intrinsics -/

/-- C7: for every `Camera` with nonzero `fx, fy`, the derived quantities
satisfy `tanfovX = 1/(2 fx)`, `tanfovY = 1/(2 fy)`, `shiftX = 2 cx - 1`,
`shiftY = 2 cy - 1`; in particular `fx = fy = cx = cy = 0.5` yields
`shiftX = shiftY = 0` and `tanfovX = tanfovY = 1`. -/
theorem c7_camera_intrinsics (c : Camera) (hfx : c.fx ≠ 0) (hfy : c.fy ≠ 0) :
    (c.tanfovX = 1 / (2 * c.fx) ∧ c.tanfovY = 1 / (2 * c.fy) ∧
      c.shiftX = 2 * c.cx - 1 ∧ c.shiftY = 2 * c.cy - 1) ∧
    (c.fx = 0.5 → c.fy = 0.5 → c.cx = 0.5 → c.cy = 0.5 →
      c.shiftX = 0 ∧ c.shiftY = 0 ∧ c.tanfovX = 1 ∧ c.tanfovY = 1) := by
  refine ⟨⟨rfl, rfl, rfl, rfl⟩, ?_⟩
  intro h1 h2 h3 h4
  unfold Camera.shiftX Camera.shiftY Camera.tanfovX Camera.tanfovY
  rw [h1, h2, h3, h4]
  norm_num

/-- Witness for C7 at the centered square-FOV camera
`fx = fy = cx = cy = 0.5` (identity pose). -/
theorem c7_camera_intrinsics_witness :
    ((⟨1, 0.5, 0.5, 0.5, 0.5, 1, 1⟩ : Camera).fx ≠ 0) ∧
    ((⟨1, 0.5, 0.5, 0.5, 0.5, 1, 1⟩ : Camera).fy ≠ 0) ∧
    (((⟨1, 0.5, 0.5, 0.5, 0.5, 1, 1⟩ : Camera).tanfovX =
        1 / (2 * (⟨1, 0.5, 0.5, 0.5, 0.5, 1, 1⟩ : Camera).fx) ∧
      (⟨1, 0.5, 0.5, 0.5, 0.5, 1, 1⟩ : Camera).tanfovY =
        1 / (2 * (⟨1, 0.5, 0.5, 0.5, 0.5, 1, 1⟩ : Camera).fy) ∧
      (⟨1, 0.5, 0.5, 0.5, 0.5, 1, 1⟩ : Camera).shiftX =
        2 * (⟨1, 0.5, 0.5, 0.5, 0.5, 1, 1⟩ : Camera).cx - 1 ∧
      (⟨1, 0.5, 0.5, 0.5, 0.5, 1, 1⟩ : Camera).shiftY =
        2 * (⟨1, 0.5, 0.5, 0.5, 0.5, 1, 1⟩ : Camera).cy - 1) ∧
      ((⟨1, 0.5, 0.5, 0.5, 0.5, 1, 1⟩ : Camera).fx = 0.5 →
        (⟨1, 0.5, 0.5, 0.5, 0.5, 1, 1⟩ : Camera).fy = 0.5 →
        (⟨1, 0.5, 0.5, 0.5, 0.5, 1, 1⟩ : Camera).cx = 0.5 →
        (⟨1, 0.5, 0.5, 0.5, 0.5, 1, 1⟩ : Camera).cy = 0.5 →
        (⟨1, 0.5, 0.5, 0.5, 0.5, 1, 1⟩ : Camera).shiftX = 0 ∧
        (⟨1, 0.5, 0.5, 0.5, 0.5, 1, 1⟩ : Camera).shiftY = 0 ∧
        (⟨1, 0.5, 0.5, 0.5, 0.5, 1, 1⟩ : Camera).tanfovX = 1 ∧
        (⟨1, 0.5, 0.5, 0.5, 0.5, 1, 1⟩ : Camera).tanfovY = 1)) :=
  ⟨by norm_num, by norm_num,
    c7_camera_intrinsics (⟨1, 0.5, 0.5, 0.5, 0.5, 1, 1⟩ : Camera)
      (by norm_num) (by norm_num)⟩

/-! ## C9: constructor validation -/

/-- C9 counterexample: constructing a model with SH degree 5 (outside
`[0,4]`) and a valid activation policy succeeds — `__init__` never checks
the SH degree, so "construction is a fatal error for degree outside [0,4]"
is false. -/
theorem c9_counterexample :
    (5 : ℤ) > 4 ∧ (GaussianModel.init 5 "exp" 0.001 0.3 0.1).isSome = true :=
  ⟨by norm_num, rfl⟩

/-- C9 amended: construction does not validate the SH degree. For every SH
degree and parameters, construction succeeds iff the activation-policy name
is one of `exp`, `softplus`, `sigmoid`; an unrecognized policy name is the
only fatal construction error (and then no model instance is created). -/
theorem c9_init_policy_validation (d : ℤ) (s : String) (p₁ p₂ p₃ : ℝ) :
    (GaussianModel.init d s p₁ p₂ p₃).isSome ↔
      (s = "exp" ∨ s = "softplus" ∨ s = "sigmoid") := by
  by_cases h1 : s = "exp"
  · simp [GaussianModel.init, h1]
  · by_cases h2 : s = "softplus"
    · simp [GaussianModel.init, h1, h2]
    · by_cases h3 : s = "sigmoid"
      · simp [GaussianModel.init, h1, h2, h3]
      · simp [GaussianModel.init, h1, h2, h3]

/-! ## C2: `set_data` feature splitting -/

/-- C2 (code bug evidence): on a degree-1 model, `set_data` with a
`1×4×3` features tensor whose value at coefficient row `j` is `j` stores
the *entire* tensor as `_features_dc` (line 300: `features.contiguous()`),
not the zeroth slice `features[:, 0, :]` — under either a keep-dim `1×1×3`
or a squeezed `1×3` layout — while `_features_rest` does get
`features[:, 1:, :]`; `get_features` on the result then has `4 + 3 = 7`
coefficient rows instead of a degree-1 model's 4. -/
theorem c2_set_data_stores_whole_features :
    ∃ m' : GaussianModel,
      GaussianModel.set_data
        ⟨1, .exp, 0.001, 0.3, 0.1, Mat.empty, .m2 Mat.empty, some (.m2 Mat.empty),
          Mat.empty, Mat.empty, Mat.empty⟩
        ⟨1, 3, fun _ _ => 0⟩ (.t3 ⟨1, 4, 3, fun _ j _ => (j : ℝ)⟩)
        ⟨1, 3, fun _ _ => 0⟩ ⟨1, 4, fun _ _ => 0⟩ ⟨1, 1, fun _ _ => 0⟩ = some m' ∧
      m'._features_dc = .t3 ⟨1, 4, 3, fun _ j _ => (j : ℝ)⟩ ∧
      m'._features_dc ≠ .t3 ⟨1, 1, 3, fun _ _ _ => (0 : ℝ)⟩ ∧
      m'._features_dc ≠ .m2 ⟨1, 3, fun _ _ => (0 : ℝ)⟩ ∧
      m'._features_rest = some (.t3 ⟨1, 3, 3, fun _ j _ => ((j + 1 : ℕ) : ℝ)⟩) ∧
      (∃ t : Ten3, m'.get_features = some (.t3 t) ∧ t.d1 = 7) := by
  refine ⟨_, rfl, rfl, ?_, ?_, rfl, ⟨_, rfl, rfl⟩⟩
  · intro h
    simp only [Feat.t3.injEq, Ten3.mk.injEq] at h
    omega
  · intro h
    exact Feat.noConfusion h

/-! ## Sorting lemmas for the load path -/

lemma insertByKey_perm {α : Type} (key : α → ℕ) (a : α) (l : List α) :
    (insertByKey key a l).Perm (a :: l) := by
  induction l with
  | nil => exact List.Perm.refl _
  | cons b t ih =>
    unfold insertByKey
    by_cases h : key a ≤ key b
    · rw [if_pos h]
    · rw [if_neg h]
      exact (ih.cons b).trans (List.Perm.swap a b t)

lemma sortByKey_perm {α : Type} (key : α → ℕ) (l : List α) :
    (sortByKey key l).Perm l := by
  induction l with
  | nil => exact List.Perm.refl _
  | cons a t ih =>
    exact (insertByKey_perm key a (sortByKey key t)).trans (ih.cons a)

lemma insertByKey_sorted {α : Type} (key : α → ℕ) (a : α) {l : List α}
    (h : l.Pairwise (fun u v => key u ≤ key v)) :
    (insertByKey key a l).Pairwise (fun u v => key u ≤ key v) := by
  induction l with
  | nil => simp [insertByKey]
  | cons b t ih =>
    rw [List.pairwise_cons] at h
    obtain ⟨hb, ht⟩ := h
    unfold insertByKey
    by_cases hab : key a ≤ key b
    · rw [if_pos hab]
      refine List.Pairwise.cons ?_ (List.Pairwise.cons hb ht)
      intro u hu
      rcases List.mem_cons.mp hu with rfl | hu'
      · exact hab
      · exact hab.trans (hb u hu')
    · rw [if_neg hab]
      refine List.Pairwise.cons ?_ (ih ht)
      intro u hu
      have hu' := (insertByKey_perm key a t).mem_iff.mp hu
      rcases List.mem_cons.mp hu' with rfl | hu''
      · exact le_of_not_le hab
      · exact hb u hu''

lemma sortByKey_sorted {α : Type} (key : α → ℕ) (l : List α) :
    (sortByKey key l).Pairwise (fun u v => key u ≤ key v) := by
  induction l with
  | nil => simp [sortByKey]
  | cons a t ih => exact insertByKey_sorted key a ih

/-! ## C8: the SH-rest count assertion of `load_ply` -/

/-- The full behaviour of `load_ply` on a file with the fixed-name fields:
failure iff the `f_rest_*` count mismatches, and the reconstruction of the
rest tensor on success. Shared by the C8 theorem and the C3 reader clause. -/
lemma load_ply_rest_spec (m : GaussianModel) (file : PlyFile)
    (hd : m.sh_degree > 0)
    (hx : (lookup file .x).isSome = true)
    (hy : (lookup file .y).isSome = true)
    (hz : (lookup file .z).isSome = true)
    (hop : (lookup file .opacity).isSome = true)
    (hdc0 : (lookup file (.f_dc 0)).isSome = true)
    (hdc1 : (lookup file (.f_dc 1)).isSome = true)
    (hdc2 : (lookup file (.f_dc 2)).isSome = true) :
    (m.load_ply file = none ↔
      ((file.props.filter (fun p => isFRestProp p.1)).length : ℤ) ≠
        3 * (m.sh_degree + 1) ^ 2 - 3) ∧
    (((file.props.filter (fun p => isFRestProp p.1)).length : ℤ) =
        3 * (m.sh_degree + 1) ^ 2 - 3 →
      ∃ m₃, m.load_ply file = some m₃ ∧
        m₃._features_rest = some (.t3
          ⟨file.n, ((m.sh_degree + 1) ^ 2 - 1).toNat, 3, fun i j c =>
            match (sortByKey (fun p => suffixOf p.1)
                (file.props.filter (fun p => isFRestProp p.1))).get?
                (c * ((m.sh_degree + 1) ^ 2 - 1).toNat + j) with
            | some p => p.2 i
            | none => 0⟩) ∧
        (sortByKey (fun p => suffixOf p.1)
            (file.props.filter (fun p => isFRestProp p.1))).Perm
          (file.props.filter (fun p => isFRestProp p.1)) ∧
        (sortByKey (fun p => suffixOf p.1)
            (file.props.filter (fun p => isFRestProp p.1))).Pairwise
          (fun u v => suffixOf u.1 ≤ suffixOf v.1)) := by
  obtain ⟨cx, hcx⟩ := Option.isSome_iff_exists.mp hx
  obtain ⟨cy, hcy⟩ := Option.isSome_iff_exists.mp hy
  obtain ⟨cz, hcz⟩ := Option.isSome_iff_exists.mp hz
  obtain ⟨cop, hcop⟩ := Option.isSome_iff_exists.mp hop
  obtain ⟨c0, hc0⟩ := Option.isSome_iff_exists.mp hdc0
  obtain ⟨c1, hc1⟩ := Option.isSome_iff_exists.mp hdc1
  obtain ⟨c2, hc2⟩ := Option.isSome_iff_exists.mp hdc2
  have hlen : (sortByKey (fun p => suffixOf p.1)
      (file.props.filter (fun p => isFRestProp p.1))).length =
      (file.props.filter (fun p => isFRestProp p.1)).length :=
    (sortByKey_perm _ _).length_eq
  by_cases hcount : ((file.props.filter (fun p => isFRestProp p.1)).length : ℤ) =
      3 * (m.sh_degree + 1) ^ 2 - 3
  · have hres : m.load_ply file = some { m with
        _xyz := ⟨file.n, 3, fun i j =>
          if j = 0 then cx i else if j = 1 then cy i else if j = 2 then cz i else 0⟩,
        _features_dc := .t3 (Ten3.transpose12 ⟨file.n, 3, 1, fun i c k =>
          if k = 0 then
            (if c = 0 then c0 i else if c = 1 then c1 i else if c = 2 then c2 i else 0)
          else 0⟩),
        _features_rest := some (.t3 (Ten3.transpose12
          ⟨file.n, 3, ((m.sh_degree + 1) ^ 2 - 1).toNat, fun i c j =>
            match (sortByKey (fun p => suffixOf p.1)
                (file.props.filter (fun p => isFRestProp p.1))).get?
                (c * ((m.sh_degree + 1) ^ 2 - 1).toNat + j) with
            | some p => p.2 i
            | none => 0⟩)),
        _opacity := ⟨file.n, 1, fun i j => if j = 0 then cop i else 0⟩,
        _scaling := ⟨file.n,
          (sortByKey (fun p => suffixOf p.1)
            (file.props.filter (fun p => isScaleProp p.1))).length,
          fun i idx =>
            match (sortByKey (fun p => suffixOf p.1)
                (file.props.filter (fun p => isScaleProp p.1))).get? idx with
            | some p => p.2 i
            | none => 0⟩,
        _rotation := ⟨file.n,
          (sortByKey (fun p => suffixOf p.1)
            (file.props.filter (fun p => isRotProp p.1))).length,
          fun i idx =>
            match (sortByKey (fun p => suffixOf p.1)
                (file.props.filter (fun p => isRotProp p.1))).get? idx with
            | some p => p.2 i
            | none => 0⟩ } := by
      unfold GaussianModel.load_ply
      simp only [hcx, hcy, hcz, hcop, hc0, hc1, hc2,
        Option.bind_eq_bind', Option.some_bind']
      rw [if_pos hd, hlen, if_pos hcount]
      simp only [Option.bind_eq_bind', Option.some_bind']
    refine ⟨⟨fun hnone => ?_, fun hne => absurd hcount hne⟩, fun _ => ?_⟩
    · rw [hres] at hnone
      exact Option.noConfusion hnone
    · exact ⟨_, hres, rfl, sortByKey_perm _ _, sortByKey_sorted _ _⟩
  · have hres : m.load_ply file = none := by
      unfold GaussianModel.load_ply
      simp only [hcx, hcy, hcz, hcop, hc0, hc1, hc2,
        Option.bind_eq_bind', Option.some_bind']
      rw [if_pos hd, hlen, if_neg hcount]
      simp only [Option.bind_eq_bind', Option.none_bind']
    exact ⟨⟨fun _ => hcount, fun _ => hres⟩, fun hc => absurd hc hcount⟩

/-- C8: for every model with SH degree `d > 0` and every scene file
containing the fixed-name position, opacity and DC color fields, `load_ply`
fails (with the count assertion, the only remaining failure point) iff the
number of `f_rest_*` properties differs from `3(d+1)² − 3`; on success,
exactly those properties, sorted (stably) by numeric suffix into a list
that is a nondecreasing-key permutation of them, are reconstructed into the
`N × 3 × ((d+1)²−1)` rest tensor (stored transposed on dims (1,2)). -/
theorem c8_load_rest_count (m : GaussianModel) (file : PlyFile)
    (hd : m.sh_degree > 0)
    (hx : (lookup file .x).isSome = true)
    (hy : (lookup file .y).isSome = true)
    (hz : (lookup file .z).isSome = true)
    (hop : (lookup file .opacity).isSome = true)
    (hdc0 : (lookup file (.f_dc 0)).isSome = true)
    (hdc1 : (lookup file (.f_dc 1)).isSome = true)
    (hdc2 : (lookup file (.f_dc 2)).isSome = true) :
    (m.load_ply file = none ↔
      ((file.props.filter (fun p => isFRestProp p.1)).length : ℤ) ≠
        3 * (m.sh_degree + 1) ^ 2 - 3) ∧
    (((file.props.filter (fun p => isFRestProp p.1)).length : ℤ) =
        3 * (m.sh_degree + 1) ^ 2 - 3 →
      ∃ m₃, m.load_ply file = some m₃ ∧
        m₃._features_rest = some (.t3
          ⟨file.n, ((m.sh_degree + 1) ^ 2 - 1).toNat, 3, fun i j c =>
            match (sortByKey (fun p => suffixOf p.1)
                (file.props.filter (fun p => isFRestProp p.1))).get?
                (c * ((m.sh_degree + 1) ^ 2 - 1).toNat + j) with
            | some p => p.2 i
            | none => 0⟩) ∧
        (sortByKey (fun p => suffixOf p.1)
            (file.props.filter (fun p => isFRestProp p.1))).Perm
          (file.props.filter (fun p => isFRestProp p.1)) ∧
        (sortByKey (fun p => suffixOf p.1)
            (file.props.filter (fun p => isFRestProp p.1))).Pairwise
          (fun u v => suffixOf u.1 ≤ suffixOf v.1)) :=
  load_ply_rest_spec m file hd hx hy hz hop hdc0 hdc1 hdc2

/-- Witness for C8: the degree-1 model and the 9-rest-property file. -/
theorem c8_load_rest_count_witness :
    (mC8.sh_degree > 0) ∧
    (lookup c8File .x).isSome = true ∧
    (lookup c8File .opacity).isSome = true ∧
    (lookup c8File (.f_dc 0)).isSome = true ∧
    (mC8.load_ply c8File = none ↔
      ((c8File.props.filter (fun p => isFRestProp p.1)).length : ℤ) ≠
        3 * (mC8.sh_degree + 1) ^ 2 - 3) :=
  ⟨by decide, rfl, rfl, rfl,
    (c8_load_rest_count mC8 c8File (by decide)
      rfl rfl rfl rfl rfl rfl rfl).1⟩

/-! ## C1: the degree-0 save/load round trip -/

/-- C1 amended: for every degree-0 scene model (any activation policy),
saving in the standard variant and loading into a fresh degree-0 model
reproduces the position, opacity, and DC color values exactly; when the
activation policy (of both models) is `exp`, the decoded scaling
(`get_scaling`) of the reloaded model also equals the original exactly.
(For `sigmoid`/`softplus` the scale round trip is not exact in general,
but it is not *never* exact either — see the counterexample — so the
original "if and only if" is weakened to "if".) -/
theorem c1_roundtrip_deg0 (N : ℕ) (pol : ScalingActivationType) (mn mx mu : ℝ)
    (xf dcf sf rf opf : ℕ → ℕ → ℝ) (m₂ : GaussianModel)
    (hdeg2 : m₂.sh_degree = 0) :
    ∃ file m₃,
      (⟨0, pol, mn, mx, mu, ⟨N, 3, xf⟩, .m2 ⟨N, 3, dcf⟩, none,
        ⟨N, 3, sf⟩, ⟨N, 4, rf⟩, ⟨N, 1, opf⟩⟩ : GaussianModel).save_ply
          false false false = some file ∧
      m₂.load_ply file = some m₃ ∧
      (∀ i j, i < N → j < 3 → m₃._xyz.f i j = xf i j) ∧
      (∀ i, i < N → m₃._opacity.f i 0 = opf i 0) ∧
      (∃ t : Ten3, m₃._features_dc = .t3 t ∧ t.d0 = N ∧ t.d1 = 1 ∧ t.d2 = 3 ∧
        (∀ i j, i < N → j < 3 → t.f i 0 j = dcf i j)) ∧
      (pol = .exp → m₂.scaling_activation_type = .exp →
        ∀ i j, i < N → j < 3 →
          m₃.get_scaling.f i j =
            (⟨0, pol, mn, mx, mu, ⟨N, 3, xf⟩, .m2 ⟨N, 3, dcf⟩, none,
              ⟨N, 3, sf⟩, ⟨N, 4, rf⟩, ⟨N, 1, opf⟩⟩ : GaussianModel).get_scaling.f i j) := by
  cases pol with
  | exp =>
    refine ⟨_, _, rfl,
      by unfold GaussianModel.load_ply; rw [hdeg2]; rfl, ?_, ?_, ?_, ?_⟩
    · intro i j _ hj
      interval_cases j <;> rfl
    · intro i _
      rfl
    · exact ⟨_, rfl, rfl, rfl, rfl, fun i j _ hj => by interval_cases j <;> rfl⟩
    · intro _ hpol₂ i j _ hj
      simp only [GaussianModel.get_scaling, hpol₂]
      interval_cases j <;> rfl
  | softplus =>
    refine ⟨_, _, rfl,
      by unfold GaussianModel.load_ply; rw [hdeg2]; rfl, ?_, ?_, ?_, ?_⟩
    · intro i j _ hj
      interval_cases j <;> rfl
    · intro i _
      rfl
    · exact ⟨_, rfl, rfl, rfl, rfl, fun i j _ hj => by interval_cases j <;> rfl⟩
    · intro h
      exact absurd h (by decide)
  | sigmoid =>
    refine ⟨_, _, rfl,
      by unfold GaussianModel.load_ply; rw [hdeg2]; rfl, ?_, ?_, ?_, ?_⟩
    · intro i j _ hj
      interval_cases j <;> rfl
    · intro i _
      rfl
    · exact ⟨_, rfl, rfl, rfl, rfl, fun i j _ hj => by interval_cases j <;> rfl⟩
    · intro h
      exact absurd h (by decide)

/-- Witness for C1 at a concrete one-primitive all-zero `exp` model and a
fresh degree-0 `exp` reader. -/
theorem c1_roundtrip_deg0_witness :
    ((⟨0, .exp, 0, 0, 0, Mat.empty, .m2 Mat.empty, none, Mat.empty, Mat.empty,
        Mat.empty⟩ : GaussianModel).sh_degree = 0) ∧
    (∃ file m₃,
      (⟨0, .exp, 0, 0, 0, ⟨1, 3, fun _ _ => 0⟩, .m2 ⟨1, 3, fun _ _ => 0⟩, none,
        ⟨1, 3, fun _ _ => 0⟩, ⟨1, 4, fun _ _ => 0⟩,
        ⟨1, 1, fun _ _ => 0⟩⟩ : GaussianModel).save_ply false false false =
          some file ∧
      (⟨0, .exp, 0, 0, 0, Mat.empty, .m2 Mat.empty, none, Mat.empty, Mat.empty,
        Mat.empty⟩ : GaussianModel).load_ply file = some m₃) := by
  refine ⟨rfl, ?_⟩
  obtain ⟨file, m₃, h1, h2, -, -, -, -⟩ :=
    c1_roundtrip_deg0 1 .exp 0 0 0 (fun _ _ => 0) (fun _ _ => 0) (fun _ _ => 0)
      (fun _ _ => 0) (fun _ _ => 0)
      (⟨0, .exp, 0, 0, 0, Mat.empty, .m2 Mat.empty, none, Mat.empty, Mat.empty,
        Mat.empty⟩ : GaussianModel) rfl
  exact ⟨file, m₃, h1, h2⟩

/-- C1 counterexample: a `sigmoid`-policy degree-0 model whose decoded
scale sits at the fixed point 1 of the save/load asymmetry
(`scale_min_act = 1/2`, `scale_max_act = 3/2`, raw scale 0): the reloaded
`get_scaling` equals the original exactly although the policy is not
`exp`, so "scale round-trips exactly *only if* the policy is `exp`" is
false. -/
theorem c1_counterexample :
    ∃ file m₃,
      mC1sig.save_ply false false false = some file ∧
      mC1sigReader.load_ply file = some m₃ ∧
      mC1sig.scaling_activation_type ≠ .exp ∧
      (∀ i j, i < 1 → j < 3 → m₃.get_scaling.f i j = mC1sig.get_scaling.f i j) := by
  have hs0 : sigmoid 0 = 1/2 := by
    unfold sigmoid
    rw [neg_zero, Real.exp_zero]
    norm_num
  have hinner : (1:ℝ)/2 + (3/2 - 1/2) * sigmoid 0 = 1 := by
    rw [hs0]
    norm_num
  refine ⟨_, _, rfl, rfl, by decide, ?_⟩
  intro i j _ hj
  interval_cases j <;>
    (simp only [mC1sig, mC1sigReader, GaussianModel.get_scaling]
     rw [show Real.log ((1:ℝ)/2 + (3/2 - 1/2) * sigmoid 0) = 0 by
       rw [hinner, Real.log_one]]
     rfl)

/-! ## C3: viewer-variant SH-rest padding for a degree-1 model -/

/-- C3 counterexample: a degree-1 model whose 9 real rest coefficients are
all 1, saved in the viewer variant, writes 45 `f_rest_*` properties of
which the first 9 carry the value 1 and the remaining 36 are 0 — the
claimed split "18 real, 27 zero" is wrong: the claimed 18th real
coefficient (`f_rest_17`) reads back 0, not the model's 1. -/
theorem c3_counterexample :
    ∃ file, mC3.save_ply false true false = some file ∧
      (file.props.filter (fun p => isFRestProp p.1)).length = 45 ∧
      (∀ j, j < 45 → ∃ col, lookup file (.f_rest j) = some col ∧
        col 0 = if j < 9 then 1 else 0) ∧
      (∃ col, lookup file (.f_rest 17) = some col ∧ col 0 = 0 ∧ (0 : ℝ) ≠ 1) ∧
      (∃ col, lookup file (.f_rest 8) = some col ∧ col 0 = 1) := by
  refine ⟨⟨1, c3props⟩, ?_, ?_, ?_, ⟨_, rfl, rfl, by norm_num⟩, ⟨_, rfl, rfl⟩⟩
  · rfl
  · rfl
  · intro j hj
    interval_cases j <;> exact ⟨_, rfl, rfl⟩

set_option maxHeartbeats 1600000 in
/-- C3 amended: for every degree-1 model (rest tensor `N×3×3`), a
viewer-variant full-precision save succeeds and writes exactly 45
`f_rest_*` properties per primitive: the model's 9 real rest coefficients
(columns 0–8, in transpose-flattened order) followed by 36 zeros (columns
9–44), i.e. zero-padded to degree-3 capacity; a fresh degree-3 reader
then accepts the file (45 = 3·(3+1)²−3 satisfies its count assertion). -/
theorem c3_viewer_padding (N : ℕ) (pol : ScalingActivationType) (mn mx mu : ℝ)
    (xf sf rf opf : ℕ → ℕ → ℝ) (dcf restf : ℕ → ℕ → ℕ → ℝ) :
    ∃ file,
      (⟨1, pol, mn, mx, mu, ⟨N, 3, xf⟩, .t3 ⟨N, 1, 3, dcf⟩,
        some (.t3 ⟨N, 3, 3, restf⟩), ⟨N, 3, sf⟩, ⟨N, 4, rf⟩,
        ⟨N, 1, opf⟩⟩ : GaussianModel).save_ply false true false = some file ∧
      (file.props.filter (fun p => isFRestProp p.1)).length = 45 ∧
      (∀ j, j < 45 → ∃ col, lookup file (.f_rest j) = some col ∧
        ∀ i, i < N → col i = if j < 9 then restf i (j % 3) (j / 3) else 0) ∧
      (mC3reader.load_ply file).isSome = true := by
  have hreader : ∀ scol : ℕ → ℕ → ℝ,
      (mC3reader.load_ply (c3fileOf N xf sf rf opf dcf restf scol)).isSome = true := by
    intro scol
    obtain ⟨m₃, hm₃, -⟩ := (load_ply_rest_spec mC3reader
      (c3fileOf N xf sf rf opf dcf restf scol) (by decide)
      rfl rfl rfl rfl rfl rfl rfl).2 (by rfl)
    rw [hm₃]
    rfl
  cases pol with
  | exp =>
    refine ⟨c3fileOf N xf sf rf opf dcf restf (fun i j => sf i j),
      rfl, rfl, ?_, hreader _⟩
    intro j hj
    interval_cases j <;> exact ⟨_, rfl, fun i _ => rfl⟩
  | softplus =>
    refine ⟨c3fileOf N xf sf rf opf dcf restf
      (fun i j => Real.log (softplus (sf i j) * mu)), rfl, rfl, ?_, hreader _⟩
    intro j hj
    interval_cases j <;> exact ⟨_, rfl, fun i _ => rfl⟩
  | sigmoid =>
    refine ⟨c3fileOf N xf sf rf opf dcf restf
      (fun i j => Real.log (mn + (mx - mn) * sigmoid (sf i j))),
      rfl, rfl, ?_, hreader _⟩
    intro j hj
    interval_cases j <;> exact ⟨_, rfl, fun i _ => rfl⟩

end GRM
